import Mathlib

/-!
# Zenno Concierge — negotiation engine, shallow embedding

This file embeds the negotiation state machine, the voice-response
renderer, the call-status reconciler and the payment processing endpoint
of the Zenno Concierge server (the `registerRoutes` gather/webhook/payment
handlers and `generateConversationalTwiML`) as executable Lean functions,
and proves the spec claims about them.

Modelling conventions:
* JavaScript numbers that are only ever non-negative integers in the code
  (prices, quantities, attempt counters, durations) are `Nat`.
* JavaScript `x || d` defaulting on numbers is `jsOr` (`0` is falsy).
* `String.prototype.includes` is `strIncludes` (substring containment),
  `/\d+/` extraction is `firstNumber` / `allNumbers` (maximal ASCII digit
  runs, as JS `\d` only matches ASCII digits).
* Randomly generated ids and wall-clock timestamps are elided: a chat
  message is represented by its template and numeric payload (`Notice`).
* The speech argument of the gather step is the transcript already
  lowercased, exactly as the handler computes `speechResult` before any
  matching.
-/

namespace Zenno

/-- Negotiation dialog stages.  The schema enumerates
`greeting .. ended`; the gather handler additionally routes through a
`timeout` pseudo-stage, so it is included here. -/
inductive Stage
  | greeting
  | askRequirements
  | negotiatePrice
  | counterOffer
  | finalAgreement
  | noSaree
  | ended
  | timeout
deriving DecidableEq, Repr

/-- Call lifecycle statuses (schema `callStatusSchema`). -/
inductive CallStatus
  | initiating
  | ringing
  | inProgress
  | negotiating
  | completed
  | noAnswer
  | hungUp
  | timeout
  | failed
deriving DecidableEq, Repr

/-- Session journey statuses (schema `journeyStatusSchema`). -/
inductive Journey
  | chatting
  | searchingVendors
  | selectingVendor
  | callingVendor
  | processingPayment
  | completed
deriving DecidableEq, Repr

/-- The negotiation sub-state as the gather handler holds it after its
entry normalization (`stage`/`attempts`/`quantity`/`initialPrice` are
always present there; `vendorPrice`/`finalPrice` may still be absent). -/
structure ConversationState where
  stage : Stage
  attempts : Nat
  quantity : Nat
  initialPrice : Nat
  vendorPrice : Option Nat
  finalPrice : Option Nat
deriving DecidableEq, Repr

/-- JavaScript `n || d` on numbers: `0` is falsy. -/
def jsOr (n d : Nat) : Nat := if n = 0 then d else n

/-- JavaScript `o?.x || d` where the field may be absent. -/
def jsOrOpt (o : Option Nat) (d : Nat) : Nat :=
  match o with
  | none => d
  | some n => jsOr n d

/-- JavaScript truthiness of an optional number (`undefined` and `0` are
falsy). -/
def jsTruthyOpt (o : Option Nat) : Bool :=
  match o with
  | none => false
  | some n => n != 0

/-- `listHasPrefix s p` holds when `p` is an initial segment of `s`. -/
def listHasPrefix : List Char → List Char → Bool
  | _, [] => true
  | [], _ :: _ => false
  | a :: s, b :: p => a == b && listHasPrefix s p

/-- Substring occurrence on character lists. -/
def listContainsAux : List Char → List Char → Bool
  | [], p => p.isEmpty
  | s :: rest, p => listHasPrefix (s :: rest) p || listContainsAux rest p

/-- JavaScript `s.includes(pat)`. -/
def strIncludes (s pat : String) : Bool := listContainsAux s.data pat.data

/-- Numeric value of an ASCII digit. -/
def digitVal (c : Char) : Nat := c.toNat - '0'.toNat

/-- Scanner state for extracting maximal digit runs. -/
structure NumScan where
  rev : List Nat
  cur : Option Nat
deriving Repr

/-- One scanner step: extend the current digit run or close it off. -/
def numScanStep (st : NumScan) (c : Char) : NumScan :=
  if c.isDigit then
    { rev := st.rev, cur := some ((st.cur.getD 0) * 10 + digitVal c) }
  else
    match st.cur with
    | some n => { rev := n :: st.rev, cur := none }
    | none => st

/-- All maximal ASCII-digit runs of `s`, as numbers, in order: the JS
`s.match(/\d+/g)` followed by `parseInt` on each token. -/
def allNumbers (s : String) : List Nat :=
  let st := s.data.foldl numScanStep ⟨[], none⟩
  (match st.cur with
   | some n => n :: st.rev
   | none => st.rev).reverse

/-- The first maximal digit run of `s`: JS `s.match(/\d+/)` + `parseInt`. -/
def firstNumber (s : String) : Option Nat := (allNumbers s).head?

/-- The handler's `maxAttempts`. -/
def maxAttempts : Nat := 3

/-- Affirmative test of the `greeting` stage:
`digits === "1" || speech.includes("हाँ") || speech.includes("yes") ||
speech.includes("haan")`. -/
def greetingYes (speech digits : String) : Bool :=
  digits == "1" || strIncludes speech "हाँ" || strIncludes speech "yes" ||
    strIncludes speech "haan"

/-- Negative test of the `greeting` stage:
`digits === "2" || speech.includes("नहीं") || speech.includes("no") ||
speech.includes("nahi")`. -/
def greetingNo (speech digits : String) : Bool :=
  digits == "2" || strIncludes speech "नहीं" || strIncludes speech "no" ||
    strIncludes speech "nahi"

/-- Affirmative test of the `negotiatePrice` stage. -/
def negotiateYes (speech digits : String) : Bool :=
  strIncludes speech "हाँ" || strIncludes speech "yes" || digits == "1"

/-- Affirmative test of the `counterOffer` stage. -/
def counterYes (speech digits : String) : Bool :=
  strIncludes speech "हाँ" || strIncludes speech "yes" ||
    strIncludes speech "ठीक" || strIncludes speech "चलेगा" || digits == "1"

/--`hasInput` of the gather handler: `speechResult || digits` truthiness. -/
def hasInput (speech digits : String) : Bool :=
  speech != "" || digits != ""

/-- Assistant-facing chat messages, identified by their template in the
source together with the numeric payload (ids and timestamps elided). -/
inductive Notice
  /-- "The vendor was not responsive during the call. …" (pre-switch
  timeout in the gather handler). -/
  | vendorNotResponsiveTimeout
  /-- "The vendor was not responsive. …" (post-switch timeout). -/
  | vendorNotResponsive
  /-- "The vendor hung up the call. …" -/
  | vendorHungUp
  /-- "The call ended before negotiation could complete. …" -/
  | callEndedBeforeNegotiation
  /-- "Great news! I've negotiated a price of ₹… Ready to proceed with
  payment?" -/
  | negotiatedPriceReady (price : Nat)
  /-- "The call has ended. Would you like to try another vendor …" -/
  | callEndedAmbiguous
  /-- "The vendor didn't answer the call. …" -/
  | vendorDidNotAnswer
  /-- "The call could not be connected. …" -/
  | callNotConnected
  /-- "The call was canceled. …" -/
  | callCanceled
deriving DecidableEq, Repr

/-- Everything one gather turn does: the computed next stage, the
in-memory conversation state afterwards, whether that state was persisted
onto the call (the timeout paths return early and do not persist it),
any write to the call's `status` field, any write to the session's
`journeyStatus`, and any assistant message appended. -/
structure GatherResult where
  nextStage : Stage
  state : ConversationState
  persistState : Bool
  callStatusSet : Option CallStatus
  journeySet : Option Journey
  message : Option Notice
deriving DecidableEq, Repr

/-- The `switch (stage)` block of the gather handler: next stage and
updated conversation state. -/
def gatherSwitch (stage : Stage) (speech digits : String)
    (cs0 : ConversationState) : Stage × ConversationState :=
  match stage with
      | Stage.greeting =>
        if greetingYes speech digits then
          (Stage.askRequirements, { cs0 with attempts := 0 })
        else if greetingNo speech digits then
          (Stage.noSaree, { cs0 with attempts := 0 })
        else
          let a := cs0.attempts + 1
          if maxAttempts ≤ a then (Stage.noSaree, { cs0 with attempts := a })
          else (Stage.greeting, { cs0 with attempts := a })
      | Stage.askRequirements =>
        match allNumbers speech with
        | n0 :: rest =>
          (Stage.negotiatePrice,
            { cs0 with
              quantity := jsOr n0 5
              vendorPrice :=
                match rest with
                | n1 :: _ => some n1
                | [] => cs0.vendorPrice
              attempts := 0 })
        | [] =>
          if !hasInput speech digits then
            let a := cs0.attempts + 1
            if maxAttempts ≤ a then (Stage.timeout, { cs0 with attempts := a })
            else (Stage.askRequirements, { cs0 with attempts := a })
          else
            (Stage.negotiatePrice, { cs0 with attempts := 0 })
      | Stage.negotiatePrice =>
        if negotiateYes speech digits then
          (Stage.finalAgreement,
            { cs0 with finalPrice := some cs0.initialPrice, attempts := 0 })
        else if !hasInput speech digits then
          let a := cs0.attempts + 1
          if maxAttempts ≤ a then (Stage.timeout, { cs0 with attempts := a })
          else (Stage.negotiatePrice, { cs0 with attempts := a })
        else
          let vp :=
            match firstNumber speech with
            | some n => n
            | none => jsOr cs0.initialPrice 8000 + 2000
          -- Math.round(((initialPrice || 8000) + vendorPrice) / 2)
          let fp := (jsOr cs0.initialPrice 8000 + vp + 1) / 2
          (Stage.counterOffer,
            { cs0 with vendorPrice := some vp, finalPrice := some fp, attempts := 0 })
      | Stage.counterOffer =>
        if counterYes speech digits then
          (Stage.finalAgreement, { cs0 with attempts := 0 })
        else if !hasInput speech digits then
          let a := cs0.attempts + 1
          if maxAttempts ≤ a then (Stage.timeout, { cs0 with attempts := a })
          else (Stage.counterOffer, { cs0 with attempts := a })
        else
          (Stage.finalAgreement,
            { cs0 with
              finalPrice := some (jsOrOpt cs0.finalPrice 9000 + 500)
              attempts := 0 })
      | _ => (Stage.ended, cs0)

/-- One turn of the gather handler
(`POST /api/calls/gather/:sessionId/:callId/:stage`), from the point
where the conversation state has been normalized.  `speech` is the
already-lowercased `SpeechResult`, `digits` the `Digits` field. -/
def gatherTurn (stage : Stage) (speech digits : String)
    (cs0 : ConversationState) : GatherResult :=
  if !hasInput speech digits && maxAttempts ≤ cs0.attempts then
    -- pre-switch timeout: mark the call timed out, reset the journey,
    -- notify, hang up; the conversation state is not written back
    { nextStage := Stage.timeout
      state := cs0
      persistState := false
      callStatusSet := some CallStatus.timeout
      journeySet := some Journey.selectingVendor
      message := some Notice.vendorNotResponsiveTimeout }
  else
    let out := gatherSwitch stage speech digits cs0
    if out.1 = Stage.timeout then
      { nextStage := Stage.timeout
        state := out.2
        persistState := false
        callStatusSet := some CallStatus.timeout
        journeySet := some Journey.selectingVendor
        message := some Notice.vendorNotResponsive }
    else
      { nextStage := out.1
        state := { out.2 with stage := out.1 }
        persistState := true
        callStatusSet := none
        journeySet := none
        message := none }

/-! ## Voice response renderer (`generateConversationalTwiML`) -/

/-- The templated prompt texts of `NEGOTIATION_SCRIPTS`, identified by
template together with the numeric substitutions performed on them. -/
inductive Prompt
  | greetingMsg
  | askRequirementsMsg
  | negotiatePriceMsg (quantity price : Nat)
  | counterOfferMsg (vendorPrice counterPrice : Nat)
  | finalAgreementMsg (finalPrice : Nat)
  | noSareeMsg
  | fallbackOf (stage : Stage)
  /-- "क्षमा करें, मैं आपकी बात सुन नहीं पा रहा हूं। …" -/
  | apology
deriving DecidableEq, Repr

/-- The directives making up a rendered voice-dialog (TwiML) document.
The gather directive carries the prompt spoken inside it and the
`(stage, attempt)` pair embedded in its action URL; the redirect carries
the `(stage, attempt)` of its target. -/
inductive Directive
  | say (p : Prompt)
  | gatherInput (inner : Prompt) (stage : Stage) (attempt : Nat)
  | redirect (stage : Stage) (attempt : Nat)
  | hangup
deriving DecidableEq, Repr

/-- The prompt selection and placeholder substitution at the top of
`generateConversationalTwiML`, for the handler's invocation where
`quantity` and `initialPrice` are present and `vendorPrice`/`finalPrice`
default to `10000`/`9000` when absent. -/
def stagePrompt (stage : Stage) (cd : ConversationState) : Prompt :=
  match stage with
  | Stage.greeting => Prompt.greetingMsg
  | Stage.askRequirements => Prompt.askRequirementsMsg
  | Stage.negotiatePrice => Prompt.negotiatePriceMsg cd.quantity cd.initialPrice
  | Stage.counterOffer =>
      Prompt.counterOfferMsg (cd.vendorPrice.getD 10000) (cd.finalPrice.getD 9000)
  | Stage.finalAgreement => Prompt.finalAgreementMsg (cd.finalPrice.getD 9000)
  | Stage.noSaree => Prompt.noSareeMsg
  | _ => Prompt.greetingMsg

/-- `generateConversationalTwiML` as a structured document. -/
def renderTwiML (stage : Stage) (cd : ConversationState) (attempt : Nat) :
    List Directive :=
  let processed := stagePrompt stage cd
  if stage = Stage.finalAgreement ∨ stage = Stage.noSaree ∨ stage = Stage.ended then
    [Directive.say processed, Directive.hangup]
  else if maxAttempts ≤ attempt then
    [Directive.gatherInput processed stage attempt,
     Directive.say Prompt.apology,
     Directive.hangup]
  else
    [Directive.gatherInput processed stage attempt,
     Directive.say (Prompt.fallbackOf stage),
     Directive.redirect stage (attempt + 1)]

/-- Whether a rendered document contains an input-gather directive. -/
def hasGather : List Directive → Bool
  | [] => false
  | Directive.gatherInput _ _ _ :: _ => true
  | _ :: rest => hasGather rest

/-- Whether a rendered document contains a retry redirect. -/
def hasRedirect : List Directive → Bool
  | [] => false
  | Directive.redirect _ _ :: _ => true
  | _ :: rest => hasRedirect rest

/-! ## Session / call model and the status-callback reconciler -/

/-- Transaction statuses as the routes use them (the approval flow adds
`awaiting-approval`, `approved` and `rejected` to the schema's list). -/
inductive TxStatus
  | pending
  | awaitingApproval
  | approved
  | rejected
  | processing
  | completed
  | failed
deriving DecidableEq, Repr

/-- Payment record (settlement-provider reference fields elided down to
the parts the claims observe). -/
structure Transaction where
  amount : Nat
  status : TxStatus
deriving DecidableEq, Repr

/-- A call, restricted to the fields the webhook reconciler reads and
writes. -/
structure Call where
  status : CallStatus
  duration : Option Nat
  negotiatedPrice : Option Nat
  conversationState : Option ConversationState
deriving DecidableEq, Repr

/-- A session, restricted to the fields the claims observe. -/
structure Session where
  messages : List Notice
  journeyStatus : Journey
  currentCall : Option Call
  transaction : Option Transaction
deriving DecidableEq, Repr

/-- Outcome of the status-mapping block of the webhook handler: the
mapped call status, the user-facing message (if any), whether the journey
is reset to `selecting-vendor` afterwards, and the direct journey write
performed inside the successful-negotiation branch. -/
structure ReconcileOutcome where
  mappedStatus : CallStatus
  message : Option Notice
  resetJourney : Bool
  journeyDirectSet : Option Journey
deriving DecidableEq, Repr

/-- The status-mapping chain of `POST /api/calls/webhook/:sessionId/:callId`.
`callStatus` is the provider's `CallStatus` string, `duration` the parsed
`CallDuration` (`0` when absent), `negotiatedPrice` the current call's
negotiated price. -/
def reconcile (callStatus : String) (duration : Nat)
    (negotiatedPrice : Option Nat) : ReconcileOutcome :=
  if callStatus == "no-answer" || callStatus == "busy" then
    ⟨CallStatus.noAnswer, some Notice.vendorDidNotAnswer, true, none⟩
  else if callStatus == "failed" then
    ⟨CallStatus.failed, some Notice.callNotConnected, true, none⟩
  else if callStatus == "canceled" then
    ⟨CallStatus.hungUp, some Notice.callCanceled, true, none⟩
  else if callStatus == "completed" then
    if duration < 10 then
      ⟨CallStatus.hungUp, some Notice.vendorHungUp, true, none⟩
    else if !jsTruthyOpt negotiatedPrice && duration < 60 then
      ⟨CallStatus.hungUp, some Notice.callEndedBeforeNegotiation, true, none⟩
    else if jsTruthyOpt negotiatedPrice then
      ⟨CallStatus.completed,
       some (Notice.negotiatedPriceReady ((negotiatedPrice).getD 0)),
       false, some Journey.processingPayment⟩
    else
      ⟨CallStatus.completed, some Notice.callEndedAmbiguous, true, none⟩
  else if callStatus == "ringing" then
    ⟨CallStatus.ringing, none, false, none⟩
  else if callStatus == "in-progress" || callStatus == "answered" then
    ⟨CallStatus.inProgress, none, false, none⟩
  else if callStatus == "initiated" || callStatus == "queued" then
    ⟨CallStatus.initiating, none, false, none⟩
  else
    ⟨CallStatus.failed, none, false, none⟩

/-- A provider status-callback event as the webhook handler reads it. -/
structure WebhookEvent where
  callStatus : String
  duration : Nat
deriving DecidableEq, Repr

/-- The state change of one webhook delivery on a session that exists and
has a current call (the handler's body after the existence check):
journey write of the success branch, call update, conditional journey
reset, message append. -/
def applyWebhook (s : Session) (ev : WebhookEvent) : Session :=
  match s.currentCall with
  | none => s
  | some call =>
    let o := reconcile ev.callStatus ev.duration call.negotiatedPrice
    let s1 :=
      match o.journeyDirectSet with
      | some j => { s with journeyStatus := j }
      | none => s
    let s2 := { s1 with
      currentCall := some { call with status := o.mappedStatus, duration := some ev.duration } }
    let s3 :=
      if o.resetJourney then { s2 with journeyStatus := Journey.selectingVendor }
      else s2
    match o.message with
    | some m => { s3 with messages := s3.messages ++ [m] }
    | none => s3

/-- The full webhook endpoint: missing session or missing current call
drops the event and still answers 200; a storage error thrown anywhere in
the body is caught and answered 200 (`storageFailure` injects such a
throw); otherwise the body runs and ends in `res.sendStatus(200)`. -/
def webhookHandler (storageFailure : Option String) (s : Option Session)
    (ev : WebhookEvent) : Nat × Option Session :=
  let tryBlock : Except String (Nat × Option Session) :=
    match storageFailure with
    | some e => Except.error e
    | none =>
      match s with
      | none => Except.ok (200, none)
      | some sess =>
        match sess.currentCall with
        | none => Except.ok (200, some sess)
        | some _ => Except.ok (200, some (applyWebhook sess ev))
  match tryBlock with
  | Except.ok r => r
  | Except.error _ => (200, s)

/-! ## Payment processing (`POST /api/payments/process`) -/

/-- The three settlement steps of the processing pipeline. -/
inductive SettleStep
  | convertCurrency
  | transferUSDC
  | payout
deriving DecidableEq, Repr

/-- Result of one payment-process request: HTTP status, the settlement
steps that were performed (in order), the resulting transaction, and
whether a transaction was synthesized on the fly.  The settlement
collaborators (Coinbase conversion, Locus transfer, Stripe payout) are
external and modelled as succeeding; the pipeline is recorded through
`steps`. -/
structure PayResult where
  httpStatus : Nat
  steps : List SettleStep
  transaction : Option Transaction
  synthesized : Bool
deriving DecidableEq, Repr

/-- The decision structure of `POST /api/payments/process`: 404 when the
session or its selected vendor is missing; with no stored transaction a
fresh one is synthesized (status `processing`) and settled; a stored
transaction whose status is not exactly `approved` is rejected with 400
before any settlement step; an `approved` one is moved to `processing`
and settled.  Settlement ends with status `completed`. -/
def processPayment (hasSessionAndVendor : Bool) (tx : Option Transaction)
    (amount : Nat) : PayResult :=
  if !hasSessionAndVendor then
    { httpStatus := 404, steps := [], transaction := tx, synthesized := false }
  else
    match tx with
    | none =>
      { httpStatus := 200
        steps := [SettleStep.convertCurrency, SettleStep.transferUSDC, SettleStep.payout]
        transaction := some { amount := amount, status := TxStatus.completed }
        synthesized := true }
    | some t =>
      if t.status ≠ TxStatus.approved then
        { httpStatus := 400, steps := [], transaction := some t, synthesized := false }
      else
        { httpStatus := 200
          steps := [SettleStep.convertCurrency, SettleStep.transferUSDC, SettleStep.payout]
          transaction := some { t with status := TxStatus.completed }
          synthesized := false }

/-- The four stages whose rendered documents gather input (every gather
turn arrives at one of these). -/
def gatherStages : List Stage :=
  [Stage.greeting, Stage.askRequirements, Stage.negotiatePrice, Stage.counterOffer]

/-! ## Theorems -/

theorem hasInput_false_iff (speech digits : String) :
    hasInput speech digits = false ↔ speech = "" ∧ digits = "" := by
  simp [hasInput]

theorem negotiateYes_input {speech digits : String}
    (h : negotiateYes speech digits = true) : hasInput speech digits = true := by
  cases hf : hasInput speech digits with
  | true => rfl
  | false =>
    obtain ⟨hs, hd⟩ := (hasInput_false_iff speech digits).mp hf
    subst hs; subst hd
    exact absurd h (by decide)

theorem counterYes_input {speech digits : String}
    (h : counterYes speech digits = true) : hasInput speech digits = true := by
  cases hf : hasInput speech digits with
  | true => rfl
  | false =>
    obtain ⟨hs, hd⟩ := (hasInput_false_iff speech digits).mp hf
    subst hs; subst hd
    exact absurd h (by decide)

/-- C1: at stage `negotiatePrice`, an affirmative input (transcript
containing "हाँ" or "yes", or digits "1") sets `finalPrice := initialPrice`
and advances to `finalAgreement`; any other non-empty input sets
`vendorPrice` to the first numeric token of the transcript (or
`initialPrice + 2000` when there is none) and
`finalPrice := round((initialPrice + vendorPrice) / 2)` — for naturals,
`(initialPrice + vendorPrice + 1) / 2` — and advances to `counterOffer`;
empty input increments `attempts`, reaching the max-attempts threshold 3
forces `timeout`.  The hypothesis `initialPrice ≠ 0` holds for every
handler invocation because the handler's entry normalization defaults
`initialPrice` with `|| 8000`. -/
theorem C1_negotiate_price_turn (speech digits : String) (cs : ConversationState)
    (hip : cs.initialPrice ≠ 0) :
    (negotiateYes speech digits = true →
      (gatherTurn Stage.negotiatePrice speech digits cs).nextStage = Stage.finalAgreement ∧
      (gatherTurn Stage.negotiatePrice speech digits cs).state.finalPrice =
        some cs.initialPrice) ∧
    (negotiateYes speech digits = false → hasInput speech digits = true →
      (gatherTurn Stage.negotiatePrice speech digits cs).nextStage = Stage.counterOffer ∧
      (gatherTurn Stage.negotiatePrice speech digits cs).state.vendorPrice =
        some ((firstNumber speech).getD (cs.initialPrice + 2000)) ∧
      (gatherTurn Stage.negotiatePrice speech digits cs).state.finalPrice =
        some ((cs.initialPrice + (firstNumber speech).getD (cs.initialPrice + 2000) + 1) / 2)) ∧
    (hasInput speech digits = false →
      (cs.attempts < maxAttempts →
        (gatherTurn Stage.negotiatePrice speech digits cs).state.attempts = cs.attempts + 1 ∧
        (cs.attempts + 1 = maxAttempts →
          (gatherTurn Stage.negotiatePrice speech digits cs).nextStage = Stage.timeout) ∧
        (cs.attempts + 1 < maxAttempts →
          (gatherTurn Stage.negotiatePrice speech digits cs).nextStage = Stage.negotiatePrice)) ∧
      (maxAttempts ≤ cs.attempts →
        (gatherTurn Stage.negotiatePrice speech digits cs).nextStage = Stage.timeout)) := by
  refine ⟨?_, ?_, ?_⟩
  · intro hy
    have hin := negotiateYes_input hy
    simp [gatherTurn, gatherSwitch, hin, hy]
  · intro hy hin
    cases hfn : firstNumber speech with
    | none => simp [gatherTurn, gatherSwitch, hin, hy, hfn, jsOr, hip]
    | some n => simp [gatherTurn, gatherSwitch, hin, hy, hfn, jsOr, hip]
  · intro hin
    obtain ⟨hs, hd⟩ := (hasInput_false_iff speech digits).mp hin
    subst hs; subst hd
    have hny : negotiateYes "" "" = false := by decide
    have hie : hasInput "" "" = false := by decide
    constructor
    · intro hlt
      have hn3 : ¬ (maxAttempts ≤ cs.attempts) := Nat.not_le.mpr hlt
      refine ⟨?_, ?_, ?_⟩
      · by_cases h3 : maxAttempts ≤ cs.attempts + 1 <;>
          simp [gatherTurn, gatherSwitch, hn3, h3, hny, hie]
      · intro he
        have h3 : maxAttempts ≤ cs.attempts + 1 := le_of_eq he.symm
        simp [gatherTurn, gatherSwitch, hn3, h3, hny, hie]
      · intro hlt1
        have h3 : ¬ (maxAttempts ≤ cs.attempts + 1) := Nat.not_le.mpr hlt1
        simp [gatherTurn, gatherSwitch, hn3, h3, hny, hie]
    · intro h3
      simp [gatherTurn, gatherSwitch, h3, hny, hie]

/-- Witness for C1: the counter-offer case at transcript "12000 lagega",
initial price 8000 — vendor price 12000, midpoint 10000, stage
`counterOffer`. -/
theorem C1_negotiate_price_turn_witness :
    (gatherTurn Stage.negotiatePrice "12000 lagega" ""
      ⟨Stage.negotiatePrice, 0, 5, 8000, none, none⟩).nextStage = Stage.counterOffer ∧
    (gatherTurn Stage.negotiatePrice "12000 lagega" ""
      ⟨Stage.negotiatePrice, 0, 5, 8000, none, none⟩).state.vendorPrice = some 12000 ∧
    (gatherTurn Stage.negotiatePrice "12000 lagega" ""
      ⟨Stage.negotiatePrice, 0, 5, 8000, none, none⟩).state.finalPrice = some 10000 := by
  have h := (C1_negotiate_price_turn "12000 lagega" ""
    ⟨Stage.negotiatePrice, 0, 5, 8000, none, none⟩ (by decide)).2.1 (by decide) (by decide)
  simpa using h

/-- C2: at stage `counterOffer` with non-empty input, the next stage is
always `finalAgreement`; an affirmative input ("हाँ", "yes", "ठीक",
"चलेगा" or digits "1") leaves `finalPrice` unchanged, and any other
non-empty input bumps `finalPrice` by 500 (relative to its current,
necessarily set and non-zero, value).  In particular `counterOffer`
resolves to `finalAgreement` in one further turn. -/
theorem C2_counter_offer_turn (speech digits : String) (cs : ConversationState)
    (hin : hasInput speech digits = true) :
    (gatherTurn Stage.counterOffer speech digits cs).nextStage = Stage.finalAgreement ∧
    (counterYes speech digits = true →
      (gatherTurn Stage.counterOffer speech digits cs).state.finalPrice = cs.finalPrice) ∧
    (counterYes speech digits = false → ∀ p : Nat, cs.finalPrice = some p → p ≠ 0 →
      (gatherTurn Stage.counterOffer speech digits cs).state.finalPrice = some (p + 500)) := by
  by_cases hy : counterYes speech digits
  · refine ⟨?_, ?_, ?_⟩
    · simp [gatherTurn, gatherSwitch, hin, hy]
    · intro _; simp [gatherTurn, gatherSwitch, hin, hy]
    · intro hc; exact absurd hy (by simp [hc])
  · have hy' : counterYes speech digits = false := by simpa using hy
    refine ⟨?_, ?_, ?_⟩
    · simp [gatherTurn, gatherSwitch, hin, hy']
    · intro hc; exact absurd hc (by simp [hy'])
    · intro _ p hp hp0
      simp [gatherTurn, gatherSwitch, hin, hy', hp, jsOrOpt, jsOr, hp0]

/-- Witness for C2: non-affirmative input "mahanga hai" on a
counter-offer of 8500 closes at 9000 in `finalAgreement`. -/
theorem C2_counter_offer_turn_witness :
    (gatherTurn Stage.counterOffer "mahanga hai" ""
      ⟨Stage.counterOffer, 0, 5, 8000, some 9000, some 8500⟩).nextStage = Stage.finalAgreement ∧
    (gatherTurn Stage.counterOffer "mahanga hai" ""
      ⟨Stage.counterOffer, 0, 5, 8000, some 9000, some 8500⟩).state.finalPrice = some 9000 := by
  have h := C2_counter_offer_turn "mahanga hai" ""
    ⟨Stage.counterOffer, 0, 5, 8000, some 9000, some 8500⟩ (by decide)
  exact ⟨h.1, h.2.2 (by decide) 8500 rfl (by decide)⟩

/-- C3 counterexample: at stage `greeting` with empty input and
`attempts = 2`, the turn transitions to a different stage (`noSaree`)
yet leaves `attempts = 3`, not `0` — refuting "attempts is reset to 0 on
every transition to a different stage". -/
theorem C3_attempts_reset_counterexample :
    ¬ ((gatherTurn Stage.greeting "" "" ⟨Stage.greeting, 2, 5, 8000, none, none⟩).nextStage
          ≠ Stage.greeting →
       (gatherTurn Stage.greeting "" "" ⟨Stage.greeting, 2, 5, 8000, none, none⟩).state.attempts
          = 0) := by decide

/-- C3 amended: for every gather turn at a gathering stage, a turn that
stays on the same stage changes `attempts` only by keeping or
incrementing it, and a turn that transitions either resets `attempts`
to 0 or is a forced max-attempts transition (to `timeout`, or `noSaree`
out of `greeting`) that carries `attempts` at or above the threshold
instead of resetting it. -/
theorem C3_attempts_reset_amended (stage : Stage) (speech digits : String)
    (cs : ConversationState) (hstage : stage ∈ gatherStages) :
    ((gatherTurn stage speech digits cs).nextStage = stage →
      (gatherTurn stage speech digits cs).state.attempts = cs.attempts ∨
      (gatherTurn stage speech digits cs).state.attempts = cs.attempts + 1) ∧
    ((gatherTurn stage speech digits cs).nextStage ≠ stage →
      (gatherTurn stage speech digits cs).state.attempts = 0 ∨
      (maxAttempts ≤ (gatherTurn stage speech digits cs).state.attempts ∧
        ((gatherTurn stage speech digits cs).nextStage = Stage.timeout ∨
         (gatherTurn stage speech digits cs).nextStage = Stage.noSaree))) := by
  cases hin : hasInput speech digits with
  | false =>
    obtain ⟨hs, hd⟩ := (hasInput_false_iff speech digits).mp hin
    subst hs; subst hd
    by_cases hpre : maxAttempts ≤ cs.attempts
    · constructor
      · intro hsame
        exfalso
        have ht : (gatherTurn stage "" "" cs).nextStage = Stage.timeout := by
          simp [gatherTurn, gatherSwitch, hpre, hin]
        rw [ht] at hsame
        subst hsame
        simp [gatherStages] at hstage
      · intro _
        right
        constructor
        · simp [gatherTurn, gatherSwitch, hpre, hin]
        · left; simp [gatherTurn, gatherSwitch, hpre, hin]
    · by_cases h3 : maxAttempts ≤ cs.attempts + 1
      · fin_cases hstage <;>
          simp [gatherTurn, gatherSwitch, hpre, h3, (by decide : hasInput "" "" = false),
            (by decide : greetingYes "" "" = false), (by decide : greetingNo "" "" = false),
            (by decide : negotiateYes "" "" = false), (by decide : counterYes "" "" = false),
            (by decide : allNumbers "" = [])]
      · fin_cases hstage <;>
          simp [gatherTurn, gatherSwitch, hpre, h3, (by decide : hasInput "" "" = false),
            (by decide : greetingYes "" "" = false), (by decide : greetingNo "" "" = false),
            (by decide : negotiateYes "" "" = false), (by decide : counterYes "" "" = false),
            (by decide : allNumbers "" = [])]
  | true =>
    fin_cases hstage
    · by_cases hy : greetingYes speech digits
      · simp [gatherTurn, gatherSwitch, hin, hy]
      · by_cases hn : greetingNo speech digits
        · simp [gatherTurn, gatherSwitch, hin, hy, hn]
        · by_cases h3 : maxAttempts ≤ cs.attempts + 1 <;>
            simp [gatherTurn, gatherSwitch, hin, hy, hn, h3]
    · cases hnum : allNumbers speech with
      | nil => simp [gatherTurn, gatherSwitch, hin, hnum]
      | cons n0 rest => simp [gatherTurn, gatherSwitch, hin, hnum]
    · by_cases hy : negotiateYes speech digits
      · simp [gatherTurn, gatherSwitch, hin, hy]
      · cases hfn : firstNumber speech <;> simp [gatherTurn, gatherSwitch, hin, hy, hfn]
    · by_cases hy : counterYes speech digits <;> simp [gatherTurn, gatherSwitch, hin, hy]

/-- Witness for the amended C3: the input-driven transition
`greeting → askRequirements` on "हाँ" resets `attempts` from 1 to 0. -/
theorem C3_attempts_reset_amended_witness :
    (gatherTurn Stage.greeting "हाँ" "" ⟨Stage.greeting, 1, 5, 8000, none, none⟩).state.attempts
        = 0 ∨
    (maxAttempts ≤
        (gatherTurn Stage.greeting "हाँ" "" ⟨Stage.greeting, 1, 5, 8000, none, none⟩).state.attempts ∧
      ((gatherTurn Stage.greeting "हाँ" "" ⟨Stage.greeting, 1, 5, 8000, none, none⟩).nextStage
          = Stage.timeout ∨
       (gatherTurn Stage.greeting "हाँ" "" ⟨Stage.greeting, 1, 5, 8000, none, none⟩).nextStage
          = Stage.noSaree)) := by
  exact (C3_attempts_reset_amended Stage.greeting "हाँ" ""
    ⟨Stage.greeting, 1, 5, 8000, none, none⟩ (by decide)).2 (by decide)

/-- C4: starting from `attempts = 0`, three consecutive gather turns with
empty input keep each non-terminal stage for exactly the first two turns
and then transition to a terminal stage — `noSaree` from `greeting` and
`timeout` from `askRequirements`, `negotiatePrice` and `counterOffer` —
so no non-terminal stage survives max-attempts consecutive failed
turns. -/
theorem C4_max_attempts_terminal (cs : ConversationState) (h0 : cs.attempts = 0) :
    (let r1 := gatherTurn Stage.greeting "" "" cs
     let r2 := gatherTurn r1.nextStage "" "" r1.state
     let r3 := gatherTurn r2.nextStage "" "" r2.state
     r1.nextStage = Stage.greeting ∧ r2.nextStage = Stage.greeting ∧
       r3.nextStage = Stage.noSaree) ∧
    (let r1 := gatherTurn Stage.askRequirements "" "" cs
     let r2 := gatherTurn r1.nextStage "" "" r1.state
     let r3 := gatherTurn r2.nextStage "" "" r2.state
     r1.nextStage = Stage.askRequirements ∧ r2.nextStage = Stage.askRequirements ∧
       r3.nextStage = Stage.timeout) ∧
    (let r1 := gatherTurn Stage.negotiatePrice "" "" cs
     let r2 := gatherTurn r1.nextStage "" "" r1.state
     let r3 := gatherTurn r2.nextStage "" "" r2.state
     r1.nextStage = Stage.negotiatePrice ∧ r2.nextStage = Stage.negotiatePrice ∧
       r3.nextStage = Stage.timeout) ∧
    (let r1 := gatherTurn Stage.counterOffer "" "" cs
     let r2 := gatherTurn r1.nextStage "" "" r1.state
     let r3 := gatherTurn r2.nextStage "" "" r2.state
     r1.nextStage = Stage.counterOffer ∧ r2.nextStage = Stage.counterOffer ∧
       r3.nextStage = Stage.timeout) := by
  obtain ⟨st, a, q, ip, vp, fp⟩ := cs
  simp only at h0
  subst h0
  simp [gatherTurn, gatherSwitch, maxAttempts, (by decide : hasInput "" "" = false),
    (by decide : greetingYes "" "" = false), (by decide : greetingNo "" "" = false),
    (by decide : negotiateYes "" "" = false), (by decide : counterYes "" "" = false),
    (by decide : allNumbers "" = [])]

/-- Witness for C4 at the default initial conversation state. -/
theorem C4_max_attempts_terminal_witness :
    (let r1 := gatherTurn Stage.greeting "" "" ⟨Stage.greeting, 0, 5, 8000, none, none⟩
     let r2 := gatherTurn r1.nextStage "" "" r1.state
     let r3 := gatherTurn r2.nextStage "" "" r2.state
     r1.nextStage = Stage.greeting ∧ r2.nextStage = Stage.greeting ∧
       r3.nextStage = Stage.noSaree) ∧
    (let r1 := gatherTurn Stage.askRequirements "" "" ⟨Stage.greeting, 0, 5, 8000, none, none⟩
     let r2 := gatherTurn r1.nextStage "" "" r1.state
     let r3 := gatherTurn r2.nextStage "" "" r2.state
     r1.nextStage = Stage.askRequirements ∧ r2.nextStage = Stage.askRequirements ∧
       r3.nextStage = Stage.timeout) ∧
    (let r1 := gatherTurn Stage.negotiatePrice "" "" ⟨Stage.greeting, 0, 5, 8000, none, none⟩
     let r2 := gatherTurn r1.nextStage "" "" r1.state
     let r3 := gatherTurn r2.nextStage "" "" r2.state
     r1.nextStage = Stage.negotiatePrice ∧ r2.nextStage = Stage.negotiatePrice ∧
       r3.nextStage = Stage.timeout) ∧
    (let r1 := gatherTurn Stage.counterOffer "" "" ⟨Stage.greeting, 0, 5, 8000, none, none⟩
     let r2 := gatherTurn r1.nextStage "" "" r1.state
     let r3 := gatherTurn r2.nextStage "" "" r2.state
     r1.nextStage = Stage.counterOffer ∧ r2.nextStage = Stage.counterOffer ∧
       r3.nextStage = Stage.timeout) :=
  C4_max_attempts_terminal ⟨Stage.greeting, 0, 5, 8000, none, none⟩ rfl

theorem gatherTurn_effects (stage : Stage) (speech digits : String)
    (cs : ConversationState)
    (h : (gatherTurn stage speech digits cs).nextStage ≠ Stage.timeout) :
    (gatherTurn stage speech digits cs).callStatusSet = none ∧
    (gatherTurn stage speech digits cs).journeySet = none ∧
    (gatherTurn stage speech digits cs).message = none ∧
    (gatherTurn stage speech digits cs).persistState = true := by
  rcases hsw : gatherSwitch stage speech digits cs with ⟨ns, cs'⟩
  revert h
  unfold gatherTurn
  rw [hsw]
  split
  · intro h; simp at h
  · by_cases hns : ns = Stage.timeout
    · subst hns; intro h; simp at h
    · intro _; simp [hns]

/-- C9 counterexample: the turn `greeting` → "नहीं" transitions to
`noSaree` but appends no assistant message to the session, refuting "a
polite-decline assistant message is appended to the session's message
list". -/
theorem C9_no_saree_counterexample :
    ¬ ((gatherTurn Stage.greeting "नहीं" "" ⟨Stage.greeting, 0, 5, 8000, none, none⟩).nextStage
          = Stage.noSaree →
       (gatherTurn Stage.greeting "नहीं" "" ⟨Stage.greeting, 0, 5, 8000, none, none⟩).message
          ≠ none) := by decide

/-- C9 amended: a gather turn whose next stage is `noSaree` appends no
assistant message to the session's message list (the polite decline is
spoken to the vendor by the `noSaree` voice document, which says the
decline prompt and hangs up), and it leaves the call's `status` field and
the session's journey status untouched. -/
theorem C9_no_saree_amended (stage : Stage) (speech digits : String)
    (cs : ConversationState)
    (h : (gatherTurn stage speech digits cs).nextStage = Stage.noSaree) :
    (gatherTurn stage speech digits cs).message = none ∧
    (gatherTurn stage speech digits cs).callStatusSet = none ∧
    (gatherTurn stage speech digits cs).journeySet = none ∧
    (∀ cd attempt, renderTwiML Stage.noSaree cd attempt =
      [Directive.say Prompt.noSareeMsg, Directive.hangup]) := by
  have hnt : (gatherTurn stage speech digits cs).nextStage ≠ Stage.timeout := by
    rw [h]; exact fun hc => Stage.noConfusion hc
  obtain ⟨h1, h2, h3, _⟩ := gatherTurn_effects stage speech digits cs hnt
  refine ⟨h3, h1, h2, ?_⟩
  intro cd attempt
  simp [renderTwiML, stagePrompt]

/-- Witness for the amended C9 at the `greeting` → "नहीं" turn. -/
theorem C9_no_saree_amended_witness :
    (gatherTurn Stage.greeting "नहीं" "" ⟨Stage.greeting, 0, 5, 8000, none, none⟩).message
        = none ∧
    (gatherTurn Stage.greeting "नहीं" "" ⟨Stage.greeting, 0, 5, 8000, none, none⟩).callStatusSet
        = none ∧
    (gatherTurn Stage.greeting "नहीं" "" ⟨Stage.greeting, 0, 5, 8000, none, none⟩).journeySet
        = none ∧
    (∀ cd attempt, renderTwiML Stage.noSaree cd attempt =
      [Directive.say Prompt.noSareeMsg, Directive.hangup]) :=
  C9_no_saree_amended Stage.greeting "नहीं" ""
    ⟨Stage.greeting, 0, 5, 8000, none, none⟩ (by decide)

/-- C7 counterexample: rendered at the max-attempts threshold
(`attempt = 3`) for the non-terminal stage `greeting`, the document still
contains an input-gather directive, refuting "the document contains no
input-gather directive". -/
theorem C7_max_attempt_counterexample :
    ¬ (hasGather (renderTwiML Stage.greeting ⟨Stage.greeting, 0, 5, 8000, none, none⟩ 3)
        = false) := by decide

/-- C7 amended: at or above the max-attempts threshold the document for a
non-terminal stage still gathers once more (prompt inside a gather
directive), but the usual fallback-prompt-plus-retry-redirect tail is
replaced by an apology prompt followed by a terminate-call directive, so
the document contains no retry redirect and the call ends after that
attempt. -/
theorem C7_max_attempt_amended (stage : Stage) (cd : ConversationState)
    (attempt : Nat) (hstage : stage ∈ gatherStages)
    (hatt : maxAttempts ≤ attempt) :
    renderTwiML stage cd attempt =
      [Directive.gatherInput (stagePrompt stage cd) stage attempt,
       Directive.say Prompt.apology, Directive.hangup] ∧
    hasRedirect (renderTwiML stage cd attempt) = false := by
  have hr : renderTwiML stage cd attempt =
      [Directive.gatherInput (stagePrompt stage cd) stage attempt,
       Directive.say Prompt.apology, Directive.hangup] := by
    fin_cases hstage <;> simp [renderTwiML, hatt]
  refine ⟨hr, ?_⟩
  rw [hr]
  simp [hasRedirect]

/-- Witness for the amended C7: stage `greeting` at attempt 3. -/
theorem C7_max_attempt_amended_witness :
    renderTwiML Stage.greeting ⟨Stage.greeting, 0, 5, 8000, none, none⟩ 3 =
      [Directive.gatherInput
        (stagePrompt Stage.greeting ⟨Stage.greeting, 0, 5, 8000, none, none⟩)
        Stage.greeting 3,
       Directive.say Prompt.apology, Directive.hangup] ∧
    hasRedirect
      (renderTwiML Stage.greeting ⟨Stage.greeting, 0, 5, 8000, none, none⟩ 3) = false :=
  C7_max_attempt_amended Stage.greeting ⟨Stage.greeting, 0, 5, 8000, none, none⟩ 3
    (by decide) (by decide)

/-- C5: a provider "completed" status event for an existing session with
a current call classifies as follows — duration below 10 s becomes
`hung-up`; otherwise a call without a (non-zero) negotiated price and
duration below 60 s becomes `hung-up`; otherwise with a negotiated price
set the call becomes `completed` and the journey advances to
`processing-payment` with a negotiated-price/payment message appended; in
both hung-up cases the journey is reset to `selecting-vendor` and a
reselection-inviting message is appended. -/
theorem C5_completed_classification (s : Session) (call : Call) (ev : WebhookEvent)
    (hcall : s.currentCall = some call) (hst : ev.callStatus = "completed") :
    (ev.duration < 10 →
      (applyWebhook s ev).currentCall =
        some { call with status := CallStatus.hungUp, duration := some ev.duration } ∧
      (applyWebhook s ev).journeyStatus = Journey.selectingVendor ∧
      (applyWebhook s ev).messages = s.messages ++ [Notice.vendorHungUp]) ∧
    (¬ ev.duration < 10 → jsTruthyOpt call.negotiatedPrice = false → ev.duration < 60 →
      (applyWebhook s ev).currentCall =
        some { call with status := CallStatus.hungUp, duration := some ev.duration } ∧
      (applyWebhook s ev).journeyStatus = Journey.selectingVendor ∧
      (applyWebhook s ev).messages = s.messages ++ [Notice.callEndedBeforeNegotiation]) ∧
    (∀ p : Nat, call.negotiatedPrice = some p → p ≠ 0 → ¬ ev.duration < 10 →
      (applyWebhook s ev).currentCall =
        some { call with status := CallStatus.completed, duration := some ev.duration } ∧
      (applyWebhook s ev).journeyStatus = Journey.processingPayment ∧
      (applyWebhook s ev).messages = s.messages ++ [Notice.negotiatedPriceReady p]) := by
  rcases ev with ⟨cst, dur⟩
  simp only at hst
  subst hst
  refine ⟨?_, ?_, ?_⟩
  · intro hd10
    simp [applyWebhook, hcall, reconcile, hd10]
  · intro hd10 hnp hd60
    simp [applyWebhook, hcall, reconcile, hd10, hnp, hd60]
  · intro p hp hp0 hd10
    simp [applyWebhook, hcall, reconcile, hd10, hp, hp0, jsTruthyOpt]

/-- Witness for C5: a 5-second "completed" event with no negotiated price
classifies as hung-up, resets the journey and appends the hang-up
message. -/
theorem C5_completed_classification_witness :
    (applyWebhook
      ⟨[], Journey.callingVendor, some ⟨CallStatus.inProgress, none, none, none⟩, none⟩
      ⟨"completed", 5⟩).currentCall =
        some ⟨CallStatus.hungUp, some 5, none, none⟩ ∧
    (applyWebhook
      ⟨[], Journey.callingVendor, some ⟨CallStatus.inProgress, none, none, none⟩, none⟩
      ⟨"completed", 5⟩).journeyStatus = Journey.selectingVendor ∧
    (applyWebhook
      ⟨[], Journey.callingVendor, some ⟨CallStatus.inProgress, none, none, none⟩, none⟩
      ⟨"completed", 5⟩).messages = [] ++ [Notice.vendorHungUp] :=
  (C5_completed_classification
    ⟨[], Journey.callingVendor, some ⟨CallStatus.inProgress, none, none, none⟩, none⟩
    ⟨CallStatus.inProgress, none, none, none⟩ ⟨"completed", 5⟩ rfl rfl).1
    (by decide)

/-- C6 counterexample: delivering the same successful "completed" event
twice through the webhook handler does not leave the session unchanged —
the negotiated-price message is appended a second time — refuting
idempotency of the status-callback handler. -/
theorem C6_idempotency_counterexample :
    (webhookHandler none
      ((webhookHandler none
        (some ⟨[], Journey.callingVendor,
          some ⟨CallStatus.inProgress, none, some 9000, none⟩, none⟩)
        ⟨"completed", 90⟩).2)
      ⟨"completed", 90⟩).2 ≠
    (webhookHandler none
      (some ⟨[], Journey.callingVendor,
        some ⟨CallStatus.inProgress, none, some 9000, none⟩, none⟩)
      ⟨"completed", 90⟩).2 := by decide

/-- C6 amended: re-delivering an identical status event is idempotent on
the call state and the journey status — the second delivery maps the call
to the same status and duration and the journey to the same value — but
not on the message list: the second delivery appends the same user-facing
message again (when the event produces one). -/
theorem C6_idempotency_amended (s : Session) (ev : WebhookEvent) :
    (applyWebhook (applyWebhook s ev) ev).journeyStatus =
      (applyWebhook s ev).journeyStatus ∧
    (applyWebhook (applyWebhook s ev) ev).currentCall =
      (applyWebhook s ev).currentCall ∧
    (applyWebhook (applyWebhook s ev) ev).messages =
      (applyWebhook s ev).messages ++
        (match s.currentCall with
         | none => []
         | some c =>
           (reconcile ev.callStatus ev.duration c.negotiatedPrice).message.toList) := by
  rcases s with ⟨msgs, j, oc, tx⟩
  cases oc with
  | none => simp [applyWebhook]
  | some call =>
    rcases hrec : reconcile ev.callStatus ev.duration call.negotiatedPrice with ⟨ms, msg, rj, jd⟩
    have hnp : ({ call with status := ms, duration := some ev.duration } : Call).negotiatedPrice
        = call.negotiatedPrice := rfl
    cases msg <;> cases rj <;> cases jd <;>
      simp [applyWebhook, hrec, hnp]

/-- C8: a payment-process request on a session that already holds a
transaction whose status is not exactly `approved` is rejected with
HTTP 400, performs none of the three settlement steps and leaves the
transaction unchanged; a transaction is synthesized only when the session
holds none. -/
theorem C8_process_requires_approved (t : Transaction) (amount : Nat)
    (h : t.status ≠ TxStatus.approved) :
    processPayment true (some t) amount =
      { httpStatus := 400, steps := [], transaction := some t, synthesized := false } ∧
    (∀ t' : Transaction, (processPayment true (some t') amount).synthesized = false) ∧
    (processPayment true none amount).synthesized = true := by
  refine ⟨?_, ?_, ?_⟩
  · simp [processPayment, h]
  · intro t'
    by_cases h' : t'.status = TxStatus.approved <;> simp [processPayment, h']
  · simp [processPayment]

/-- Witness for C8: a transaction still in `awaiting-approval` is
rejected without settlement. -/
theorem C8_process_requires_approved_witness :
    processPayment true (some ⟨9000, TxStatus.awaitingApproval⟩) 9000 =
      { httpStatus := 400, steps := [],
        transaction := some ⟨9000, TxStatus.awaitingApproval⟩, synthesized := false } ∧
    (∀ t' : Transaction, (processPayment true (some t') 9000).synthesized = false) ∧
    (processPayment true none 9000).synthesized = true :=
  C8_process_requires_approved ⟨9000, TxStatus.awaitingApproval⟩ 9000 (by decide)

/-- C10: the status-callback endpoint answers HTTP 200 on every input —
when the session or its current call is missing the event is dropped and
200 is returned, when a storage operation throws the error is caught and
200 is returned, and every normal branch ends in 200. -/
theorem C10_webhook_always_200 (storageFailure : Option String)
    (s : Option Session) (ev : WebhookEvent) :
    (webhookHandler storageFailure s ev).1 = 200 := by
  rcases storageFailure with _ | e
  · rcases s with _ | sess
    · simp [webhookHandler]
    · cases hc : sess.currentCall <;> simp [webhookHandler, hc]
  · simp [webhookHandler]

end Zenno
